import Mathlib

/-!
Verification of the SmartPPS emergency-routing orchestration layer.

The definitions below are shallow embeddings of the Python sources:
  * `src/api/index.py`      — Flask handler `analyze_route` (submit + poll modes),
    the cell helper `get_cell_val` and the `selected_pps` cleanup heuristic;
  * `src/api/jamai.py`      — serverless handler `_create_routing_entry`,
    in particular its BEST MATCH marker-line extraction;
  * `src/scripts/analyze_and_route.py` — `route_optimal_pps` marker parsing;
  * `src/run_full_emergency_workflow.py` and
    `src/scripts/emergency_routing_workflow.py` — `build_candidate_table_urls`
    and the sequential candidate-endpoint upload loop;
  * `src/api/route.py`      — Flask handler `route` and `_fallback_route_logic`.

Python strings are modeled as Lean `String` (manipulated through `String.data`
as `List Char`); Python `None` / dicts / attribute objects appearing in cells
are modeled by the inductive `PyVal`; code that raises is modeled with
`Except` / explicit error branches.
-/

/-- ASCII whitespace stripped by Python's default `str.strip()`. -/
def wsChars : List Char := [' ', '\t', '\n', '\r', '\x0b', '\x0c']

/-- Drop the leading characters of `s` that belong to `set`. -/
def stripLeading (set : List Char) (s : List Char) : List Char :=
  s.dropWhile fun c => set.contains c

/-- Python `str.strip(chars)`: drop characters of `set` from both ends. -/
def stripSet (set : List Char) (s : List Char) : List Char :=
  ((stripLeading set s).reverse.dropWhile fun c => set.contains c).reverse

/-- Python `str.strip()` with no argument (whitespace on both ends). -/
def stripWs (s : List Char) : List Char := stripSet wsChars s

/-- Python `str.upper()` (ASCII case mapping suffices for the sources). -/
def toUpperL (s : List Char) : List Char := s.map Char.toUpper

/-- Python `str.lower()` (ASCII case mapping suffices for the sources). -/
def toLowerL (s : List Char) : List Char := s.map Char.toLower

/-- Case-sensitive `startswith` on character lists. -/
def startsWithCS : List Char → List Char → Bool
  | [], _ => true
  | _ :: _, [] => false
  | p :: ps, c :: cs => (p == c) && startsWithCS ps cs

/-- Case-insensitive `startswith` on character lists. -/
def startsWithCI : List Char → List Char → Bool
  | [], _ => true
  | _ :: _, [] => false
  | p :: ps, c :: cs => (p.toLower == c.toLower) && startsWithCI ps cs

/-- Case-sensitive substring containment (Python `pat in s`). -/
def containsCS (pat : List Char) : List Char → Bool
  | [] => startsWithCS pat []
  | c :: cs => startsWithCS pat (c :: cs) || containsCS pat cs

/-- Case-insensitive substring containment (Python `pat.lower() in s.lower()`). -/
def containsCI (pat : List Char) : List Char → Bool
  | [] => startsWithCI pat []
  | c :: cs => startsWithCI pat (c :: cs) || containsCI pat cs

/-- Fuelled splitter on non-overlapping case-insensitive occurrences of `pat`,
scanning left to right, as `re.split(pat, s, flags=re.IGNORECASE)` does for a
literal pattern.  The fuel is always at least the list length, so the
fuel-exhausted branch is never reached on the intended calls. -/
def splitCIFuel (pat : List Char) : Nat → List Char → List (List Char)
  | 0, s => [s]
  | _ + 1, [] => [[]]
  | fuel + 1, c :: cs =>
    if startsWithCI pat (c :: cs) && !pat.isEmpty then
      [] :: splitCIFuel pat fuel (List.drop (pat.length - 1) cs)
    else
      match splitCIFuel pat fuel cs with
      | [] => [[c]]
      | x :: xs => (c :: x) :: xs

/-- `re.split(pat, s, flags=re.IGNORECASE)` for a literal (meta-free) pattern. -/
def splitCI (pat : List Char) (s : List Char) : List (List Char) :=
  splitCIFuel pat s.length s

/-- Fuelled case-sensitive replacement of every non-overlapping occurrence of
`pat` by `rep`, left to right, as Python `str.replace` does. -/
def replaceFuelCS (pat rep : List Char) : Nat → List Char → List Char
  | 0, s => s
  | _ + 1, [] => []
  | fuel + 1, c :: cs =>
    if startsWithCS pat (c :: cs) && !pat.isEmpty then
      rep ++ replaceFuelCS pat rep fuel (List.drop (pat.length - 1) cs)
    else
      c :: replaceFuelCS pat rep fuel cs

/-- Python `s.replace(pat, rep)` (all occurrences, case-sensitive). -/
def replaceAllCS (pat rep s : List Char) : List Char :=
  replaceFuelCS pat rep s.length s

/-- Python `s.split(chr(10))`: split on every newline character. -/
def splitOnNl : List Char → List (List Char)
  | [] => [[]]
  | c :: cs =>
    if c == '\n' then [] :: splitOnNl cs
    else
      match splitOnNl cs with
      | [] => [[c]]
      | x :: xs => (c :: x) :: xs

/-- Python `str.splitlines()` restricted to the line breaks occurring in the
sources' texts (newline, carriage return, CRLF); no trailing empty line. -/
def splitLines : List Char → List (List Char)
  | [] => []
  | '\r' :: '\n' :: cs => [] :: splitLines cs
  | '\r' :: cs => [] :: splitLines cs
  | '\n' :: cs => [] :: splitLines cs
  | c :: cs =>
    match splitLines cs with
    | [] => [[c]]
    | x :: xs => (c :: x) :: xs

/-- Python `s.rstrip(chr(47))`: drop trailing slashes. -/
def rstripSlash (s : String) : String :=
  String.mk ((s.data.reverse.dropWhile fun c => c == '/').reverse)

/-- A Python value as it appears in a fetched table row: `None`, a string, a
dict (association list), or an SDK object carrying an optional `value`
attribute. -/
inductive PyVal where
  | vNone
  | vStr (s : String)
  | vDict (entries : List (String × PyVal))
  | vObj (value : Option PyVal)

/-- Python truthiness for the shapes in `PyVal`: `None`, the empty string and
the empty dict are falsy; SDK objects are truthy. -/
def pyTruthy : PyVal → Bool
  | .vNone => false
  | .vStr s => s != ""
  | .vDict es => !es.isEmpty
  | .vObj _ => true

/-- Keyed access with `None` default: `d.get(k)` on a dict row, or
`getattr(row, k, None)` on an SDK object row (both are keyed lookups). -/
def lookupD (es : List (String × PyVal)) (k : String) : PyVal :=
  match es.find? fun e => e.1 == k with
  | some e => e.2
  | none => PyVal.vNone

/-- The helper `get_cell_val` of `src/api/index.py` (lines 74-87): fetch the
cell under `key`; if the cell is falsy return `None`; otherwise take
`cell.get("value")` when the cell is a dict, else `getattr(cell, "value",
None)` — which is `None` for a bare Python string, since `str` has no
`value` attribute. -/
def get_cell_val (row : List (String × PyVal)) (key : String) : PyVal :=
  let cell := lookupD row key
  if pyTruthy cell then
    match cell with
    | .vDict es => lookupD es "value"
    | .vObj v => v.getD PyVal.vNone
    | _ => PyVal.vNone
  else PyVal.vNone

/-- The marker phrases removed by the `selected_pps` cleanup of
`src/api/index.py` (line 103). -/
def cleanupPats : List String :=
  ["The best match is", "The best PPS is", "Selected PPS:", "Best Option:"]

/-- One step of the cleanup loop of `src/api/index.py` (lines 104-107):
when the phrase occurs case-insensitively, keep the text after its first
occurrence (`re.split(pat, s, flags=re.IGNORECASE)[1]`). -/
def applyPatStrip (pat : String) (s : List Char) : List Char :=
  if containsCI pat.data s then ((splitCI pat.data s).drop 1).headD []
  else s

/-- The `selected_pps` cleanup of `src/api/index.py` (lines 100-110): strip
the marker phrases in order, then `strip(" .*:_")`. -/
def cleanPps (s : String) : String :=
  String.mk (stripSet [' ', '.', '*', ':', '_']
    (cleanupPats.foldl (fun acc pat => applyPatStrip pat acc) s.data))

/-- The JSON body and HTTP status produced by one branch of `analyze_route`
(`src/api/index.py`).  Fields that a branch does not emit are `none`. -/
structure PollResp where
  code : Nat
  success : Bool
  status : String
  analysis : Option PyVal
  tags : Option PyVal
  selected_pps : Option String
  error_details : Option String
  row_id : Option String

/-- Poll-mode result construction of `src/api/index.py` (lines 90-134) given
the three extracted cells.  When both `route_analysis` and `selected_pps` are
truthy and the facility cell is a string, the cleanup runs and a `complete`
response is returned; a truthy non-string facility cell makes the string
methods of the cleanup raise `AttributeError`, which the handler's
`except` (lines 126-134) converts to a 200 `pending` response with error
details; otherwise the plain `pending` response of lines 120-124 is
returned. -/
def pollFromCells (analysis pps tags : PyVal) (rid : String) : PollResp :=
  if pyTruthy analysis && pyTruthy pps then
    match pps with
    | .vStr s =>
      { code := 200, success := true, status := "complete",
        analysis := some analysis,
        tags := some (if pyTruthy tags then tags else .vStr ""),
        selected_pps := some (cleanPps s),
        error_details := none, row_id := none }
    | _ =>
      { code := 200, success := false, status := "pending",
        analysis := none, tags := none, selected_pps := none,
        error_details := some "AttributeError", row_id := some rid }
  else
    { code := 200, success := false, status := "pending",
      analysis := none, tags := none, selected_pps := none,
      error_details := none, row_id := some rid }

/-- Poll-mode extraction and response of `src/api/index.py` (lines 90-124)
for a located row. -/
def pollRow (row : List (String × PyVal)) (rid : String) : PollResp :=
  pollFromCells (get_cell_val row "route_analysis")
    (get_cell_val row "selected_pps") (get_cell_val row "decoded_tags") rid

/-- The shapes of `get_table_row` responses distinguished by
`src/api/index.py` (lines 48-67): a dict containing a `row` field, a dict
that is itself the row (it has a `row_id` key), a dict with neither, or an
SDK object with an optional `row` attribute, a possibly truthy `row_id`
attribute, and its own attributes as row data. -/
inductive RowResponse where
  | dictWithRow (row : List (String × PyVal))
  | dictSelfRow (row : List (String × PyVal))
  | dictOther
  | obj (rowAttr : Option (List (String × PyVal))) (rowIdTruthy : Bool)
      (selfRow : List (String × PyVal))

/-- Row-data location of `src/api/index.py` (lines 48-67). -/
def extract_row_data : RowResponse → Option (List (String × PyVal))
  | .dictWithRow r => some r
  | .dictSelfRow r => some r
  | .dictOther => none
  | .obj rowAttr rowIdTruthy selfRow =>
    match rowAttr with
    | some r => if r.isEmpty then (if rowIdTruthy then some selfRow else none) else some r
    | none => if rowIdTruthy then some selfRow else none

/-- The `pending` response of `src/api/index.py` line 71, sent when no row
data could be located. -/
def pendNoRow : PollResp :=
  { code := 200, success := false, status := "pending", analysis := none,
    tags := none, selected_pps := none, error_details := none, row_id := none }

/-- The whole poll mode of `src/api/index.py` (lines 35-134): the `fetch`
argument is the outcome of `get_table_row` plus response parsing, an
`Except.error` standing for any raised exception (network failure, unknown
`row_id`, malformed payload); the handler's `except` block (lines 126-134)
converts it to a 200 `pending` response carrying the error details. -/
def analyze_poll (fetch : Except String RowResponse) (rid : String) : PollResp :=
  match fetch with
  | .error e =>
    { code := 200, success := false, status := "pending", analysis := none,
      tags := none, selected_pps := none, error_details := some e,
      row_id := some rid }
  | .ok resp =>
    match extract_row_data resp with
    | none => pendNoRow
    | some row => if row.isEmpty then pendNoRow else pollRow row rid

/-- A row reference inside an `add_table_rows` completion, as read by
`src/api/index.py` (lines 159-172): a dict row (`first_row.get("row_id")`)
or an SDK object row (`.row_id`). -/
inductive RowRef where
  | rdict (row_id : Option String)
  | robj (row_id : Option String)

/-- Reading the row id out of a row reference. -/
def rowRefId : RowRef → Option String
  | .rdict r => r
  | .robj r => r

/-- An `add_table_rows` completion: a dict with a `rows` list (missing key
defaults to the empty list) or an SDK object with a `rows` attribute. -/
inductive Completion where
  | cdict (rows : List RowRef)
  | cobj (rows : List RowRef)

/-- Robust extraction of the submitted row id, `src/api/index.py`
lines 160-172. -/
def submitRowId : Completion → Option String
  | .cdict rows =>
    match rows with
    | [] => none
    | f :: _ => rowRefId f
  | .cobj rows =>
    match rows with
    | [] => none
    | f :: _ => rowRefId f

/-- The 500 response of `src/api/index.py` line 175, sent when no truthy row
id could be extracted from the completion. -/
def noRowId500 : PollResp :=
  { code := 500, success := false, status := "error", analysis := none,
    tags := none, selected_pps := none,
    error_details := some "Failed to submit job - no Row ID returned",
    row_id := none }

/-- Response selection from the extracted row id, `src/api/index.py`
lines 174-183: a falsy id (missing or empty) yields the 500 of line 175,
otherwise the 200 `submitted` response. -/
def submitRespOf (ridOpt : Option String) : PollResp :=
  match ridOpt with
  | some r =>
    if r != "" then
      { code := 200, success := true, status := "submitted",
        analysis := none, tags := none, selected_pps := none,
        error_details := none, row_id := some r }
    else noRowId500
  | none => noRowId500

/-- Submit mode of `src/api/index.py` (lines 139-183 plus the outer `except`
of lines 185-187): a raised submission exception yields a 500 error;
otherwise the response determined by the extracted row id. -/
def submitMode (submit : Except String Completion) : PollResp :=
  match submit with
  | .error e =>
    { code := 500, success := false, status := "error", analysis := none,
      tags := none, selected_pps := none, error_details := some e,
      row_id := none }
  | .ok comp => submitRespOf (submitRowId comp)

/-- The request body of `/api/analyze` as read by `src/api/index.py`
(lines 24-27). -/
structure AnalyzeInput where
  user_input : Option String
  location_details : Option String
  row_id : Option String

/-- Python truthiness of an optional string field. -/
def optTruthy : Option String → Bool
  | none => false
  | some s => s != ""

/-- A network side effect of `analyze_route`. -/
inductive NetCall where
  | getRow (rid : String)
  | addRows

/-- The handler `analyze_route` of `src/api/index.py` (lines 22-187): the
validation check of lines 29-30, then poll mode when a `row_id` is given,
else submit mode.  The returned list records the network calls issued;
the 400 validation branch issues none. -/
def analyze_route (inp : AnalyzeInput) (fetch : Except String RowResponse)
    (submit : Except String Completion) : PollResp × List NetCall :=
  if !optTruthy inp.user_input && !optTruthy inp.row_id then
    ({ code := 400, success := false, status := "error", analysis := none,
       tags := none, selected_pps := none,
       error_details := some "User input or row_id is required",
       row_id := none }, [])
  else if optTruthy inp.row_id then
    (analyze_poll fetch (inp.row_id.getD ""), [NetCall.getRow (inp.row_id.getD "")])
  else
    (submitMode submit, [NetCall.addRows])

/-- The marker-line test shared by `src/api/jamai.py` (line 149) and
`src/scripts/analyze_and_route.py` (line 111):
`line.strip().upper().startswith("BEST MATCH:")`. -/
def isMarkerLine (l : List Char) : Bool :=
  startsWithCS "BEST MATCH:".data (toUpperL (stripWs l))

/-- The BEST MATCH parser of `route_optimal_pps`
(`src/scripts/analyze_and_route.py`, lines 108-115): walk the lines in
reverse, return the text after the first colon of the first (hence overall
last) marker line, stripped; `None` when no line matches. -/
def route_optimal_pps_parse (full_text : String) : Option String :=
  match (splitLines full_text.data).reverse.find? (fun l => isMarkerLine l) with
  | some l =>
    some (String.mk (stripWs ((l.dropWhile fun c => c != ':').drop 1)))
  | none => none

/-- The marker extraction of `_create_routing_entry`
(`src/api/jamai.py`, lines 146-151): when `analysis_text` is truthy, collect
the stripped marker lines and index the last with `[-1]` — which raises
`IndexError` on the empty list, modeled as `Except.error ()`; on success the
pair is (facility name with the literal `BEST MATCH:` removed and stripped,
analysis text with the marker line removed and stripped). -/
def createEntryExtract (analysis_text : String) : Except Unit (String × String) :=
  if analysis_text = "" then Except.ok ("", analysis_text)
  else
    match (((splitOnNl analysis_text.data).filter fun l => isMarkerLine l).map
        fun l => stripWs l).getLast? with
    | none => Except.error ()
    | some lastLine =>
      Except.ok
        (String.mk (stripWs (replaceAllCS "BEST MATCH:".data [] lastLine)),
         String.mk (stripWs (replaceAllCS lastLine [] analysis_text.data)))

/-- `build_candidate_table_urls` of `src/run_full_emergency_workflow.py`
(lines 63-70): always the Add Rows endpoint, plus two project-scoped
variants when a project id is configured. -/
def build_candidate_table_urls (api_url project_id table_name : String) :
    List String :=
  let base := if api_url != "" then rstripSlash api_url else ""
  let candidates := [base ++ "/api/v2/gen_tables/action/rows/add"]
  if project_id != "" then
    candidates ++
      [base ++ "/v1/projects/" ++ project_id ++ "/tables/" ++ table_name ++ "/rows",
       base ++ "/v1/projects/" ++ project_id ++ "/tables/" ++ table_name]
  else candidates

/-- `build_candidate_table_urls` of
`src/scripts/emergency_routing_workflow.py` (lines 131-144): candidates are
emitted only under `if base:`, so the list is empty whenever the base URL
strips to the empty string. -/
def build_candidate_table_urls_v2 (api_url project_id table_name : String) :
    List String :=
  let base := if api_url != "" then rstripSlash api_url else ""
  if base != "" then
    [base ++ "/api/v2/gen_tables/action/rows/add"] ++
      (if project_id != "" then
        [base ++ "/v1/projects/" ++ project_id ++ "/tables/" ++ table_name ++ "/rows",
         base ++ "/v1/projects/" ++ project_id ++ "/tables/" ++ table_name]
      else []) ++
      [base ++ "/v1/tables/" ++ table_name ++ "/rows"]
  else []

/-- The success test of the upload loops (`src/run_full_emergency_workflow.py`
line 128, `src/scripts/upload_sop_to_jamai.py` line 136):
`status and 200 <= status < 300`, where `None` stands for a raised
network/client error. -/
def is2xx : Option Nat → Bool
  | some s => decide (200 ≤ s ∧ s < 300)
  | none => false

/-- The sequential candidate-endpoint loop of `upload_sop_knowledge`
(`src/run_full_emergency_workflow.py`, lines 125-135) and of
`src/scripts/upload_sop_to_jamai.py` (lines 128-140): POST to each candidate
in order, stop at the first 2xx.  Returns the succeeding URL (or `none`)
together with the list of URLs actually tried. -/
def uploadLoop (post : String → Option Nat) : List String → Option String × List String
  | [] => (none, [])
  | u :: rest =>
    if is2xx (post u) then (some u, [u])
    else ((uploadLoop post rest).1, u :: (uploadLoop post rest).2)

/-- The candidate list assembled by `upload_sop_knowledge`
(`src/run_full_emergency_workflow.py`, lines 122-123): an explicit override
first, then the resolver's candidates. -/
def upload_sop_candidates (table_api_url api_url project_id : String) :
    List String :=
  (if table_api_url != "" then [table_api_url] else []) ++
    build_candidate_table_urls api_url project_id "emergency_routing"

/-- `upload_sop_knowledge` of `src/run_full_emergency_workflow.py`
(lines 102-135), abstracted over the POST outcome per URL. -/
def upload_sop_knowledge (post : String → Option Nat)
    (table_api_url api_url project_id : String) : Option String × List String :=
  uploadLoop post (upload_sop_candidates table_api_url api_url project_id)

/-- A generated column of an SDK completion row (`src/api/route.py` uses its
`.text`). -/
structure GenCol where
  text : String

/-- An SDK completion row with its `columns` mapping. -/
structure CompRow where
  columns : List (String × GenCol)

/-- An SDK `add_table_rows` completion with its `rows` list. -/
structure CompletionR where
  rows : List CompRow

/-- Keyed column lookup (`row.get(k)` guarded by `k in row`). -/
def lookupCol (es : List (String × GenCol)) (k : String) : Option GenCol :=
  (es.find? fun e => e.1 == k).map fun e => e.2

/-- One marker entry of the demo maps in `src/api/route.py`. -/
structure Marker where
  name : String
  distance : Nat
  suitability : String

/-- One decision entry of `_fallback_route_logic` in `src/api/route.py`. -/
structure Decision where
  name : String
  distance : Nat
  suitability : String
  reason : String

/-- Marker derivation of `src/api/route.py` (lines 100-105): pattern checks
on the lowercased concatenation of analysis and tags. -/
def route_markers (route_analysis decoded_tags : String) : List Marker :=
  let lower := toLowerL route_analysis.data ++ [' '] ++ toLowerL decoded_tags.data
  let has := fun (tok : String) => containsCS tok.data lower
  [{ name := "SK Gombak", distance := 1,
     suitability :=
       if has "stairs" || has "2nd floor" || has "bedridden" then "Not Suitable"
       else "Unknown" },
   { name := "Dewan Serbaguna", distance := 2,
     suitability :=
       if has "no animals" || has "strict no animals" || has "pet policy" then
         "Not Suitable"
       else "Unknown" },
   { name := "Kolej Komuniti", distance := 4,
     suitability :=
       if has "oku" || has "outdoor pet area" || has "designated pet" then
         "Best Match"
       else "Unknown" }]

/-- `_fallback_route_logic` of `src/api/route.py` (lines 32-69): keyword
checks on the lowercased input decide the per-shelter decisions; the analysis
text is the fixed seven-line narrative; the last shelter is always the best
match. -/
def fallback_route_logic (user_input location_details : String) :
    String × List Decision :=
  let lowerUi := toLowerL user_input.data
  let has_bedridden :=
    containsCS "bedridden".data lowerUi || containsCS "warga emas".data lowerUi
  let has_cat := containsCS "cat".data lowerUi
  let decisions : List Decision :=
    [if has_bedridden then
       { name := "SK Gombak", distance := 1, suitability := "Not Suitable",
         reason := "Grandmother cannot climb stairs." }
     else { name := "SK Gombak", distance := 1, suitability := "Unknown", reason := "" },
     if has_cat then
       { name := "Dewan Serbaguna", distance := 2, suitability := "Not Suitable",
         reason := "Pet policy: No Animals." }
     else { name := "Dewan Serbaguna", distance := 2, suitability := "Unknown", reason := "" },
     { name := "Kolej Komuniti", distance := 4, suitability := "Best Match",
       reason := "OKU toilets + designated outdoor pet area." }]
  let best := decisions.find? fun d => d.suitability == "Best Match"
  let analysis_lines :=
    ["Input: " ++ user_input,
     "Location: " ++ location_details,
     "Find nearest PPS:",
     "- A (1km): SK Gombak -> 2nd floor classrooms only. Rejection: bedridden cannot climb stairs.",
     "- B (2km): Dewan Serbaguna -> Pet Policy: Strict No Animals. Rejection: user has a cat.",
     "- C (4km): Kolej Komuniti -> OKU toilets + outdoor pet area. Selection: Recommended.",
     "Recommendation: " ++ (match best with | some d => d.name | none => "None")]
  (String.intercalate "\n" analysis_lines, decisions)

/-- The JSON body of `/api/route` as read by `src/api/route.py`
(lines 73-76). -/
structure RoutePayload where
  user_input : Option String
  location_details : Option String
  created_at : Option String

/-- The response body of `/api/route`: the success shape of lines 107-111 or
the fallback shape of lines 66-69 and 114-115. -/
inductive RouteBody where
  | okBody (route_analysis decoded_tags : String) (markers : List Marker)
  | fbBody (route_analysis : String) (markers : List Decision)

/-- Python `(x or "").strip()` on an optional request field. -/
def stripField (f : Option String) : String := String.mk (stripWs (f.getD "").data)

/-- The handler `route` of `src/api/route.py` (lines 71-115): the `remote`
argument is the outcome of `add_table_rows`, `Except.error` standing for any
raised exception; an empty `rows` list makes `completion.rows[0]` raise,
which the same `except` catches.  Every branch answers HTTP 200; the
fallback payload replaces any remote failure. -/
def route_handler (p : RoutePayload) (remote : Except String CompletionR) :
    RouteBody × Nat :=
  let user_input := stripField p.user_input
  let location_details := stripField p.location_details
  match remote with
  | .error _ =>
    let fb := fallback_route_logic user_input location_details
    (RouteBody.fbBody fb.1 fb.2, 200)
  | .ok comp =>
    match comp.rows with
    | [] =>
      let fb := fallback_route_logic user_input location_details
      (RouteBody.fbBody fb.1 fb.2, 200)
    | r :: _ =>
      let route_analysis :=
        match lookupCol r.columns "route_analysis" with
        | some c => c.text
        | none => ""
      let decoded_tags :=
        match lookupCol r.columns "decoded_tags" with
        | some c => c.text
        | none => ""
      (RouteBody.okBody route_analysis decoded_tags
        (route_markers route_analysis decoded_tags), 200)

/-! ## Helper lemmas -/

@[simp] theorem pyTruthy_vNone : pyTruthy PyVal.vNone = false := rfl

@[simp] theorem pyTruthy_vStr (s : String) : pyTruthy (PyVal.vStr s) = (s != "") := rfl

@[simp] theorem pyTruthy_vDict (es : List (String × PyVal)) :
    pyTruthy (PyVal.vDict es) = !es.isEmpty := rfl

@[simp] theorem pyTruthy_vObj (v : Option PyVal) : pyTruthy (PyVal.vObj v) = true := rfl

theorem pollFromCells_spec (a p t : PyVal) (rid : String) :
    ((pollFromCells a p t rid).status = "complete" ↔
      (pyTruthy a = true ∧ ∃ s, p = PyVal.vStr s ∧ s ≠ "")) ∧
    ((pollFromCells a p t rid).status = "complete" ∨
      (pollFromCells a p t rid).status = "pending") := by
  cases hb : pyTruthy a with
  | false =>
    cases p with
    | vNone => simp [pollFromCells, hb]
    | vStr s => simp [pollFromCells, hb]
    | vDict es => simp [pollFromCells, hb]
    | vObj v => simp [pollFromCells, hb]
  | true =>
    cases p with
    | vNone => simp [pollFromCells, hb]
    | vStr s =>
      by_cases hs : s = ""
      · subst hs; simp [pollFromCells, hb]
      · simp [pollFromCells, hb, hs]
    | vDict es =>
      cases es with
      | nil => simp [pollFromCells, hb]
      | cons e es2 => simp [pollFromCells, hb]
    | vObj v => simp [pollFromCells, hb]

theorem pollFromCells_code (a p t : PyVal) (rid : String) :
    (pollFromCells a p t rid).code = 200 := by
  unfold pollFromCells
  split
  · cases p <;> rfl
  · rfl

/-! ## C1 — completion invariant of the poll response -/

/-- C1 (amended): the poll response has status `complete` exactly when the
extracted `route_analysis` cell is truthy and the extracted `selected_pps`
cell is a non-empty string; every other outcome (either cell missing or
falsy, or a truthy non-string facility cell, whose cleanup raises and is
caught) is reported with status `pending`.  The non-emptiness test is on the
raw extracted facility value, before the cleanup of lines 100-110 runs. -/
theorem c1_complete_requires_both (row : List (String × PyVal)) (rid : String) :
    ((pollRow row rid).status = "complete" ↔
      (pyTruthy (get_cell_val row "route_analysis") = true ∧
        ∃ s, get_cell_val row "selected_pps" = PyVal.vStr s ∧ s ≠ "")) ∧
    ((pollRow row rid).status = "complete" ∨ (pollRow row rid).status = "pending") :=
  pollFromCells_spec (get_cell_val row "route_analysis")
    (get_cell_val row "selected_pps") (get_cell_val row "decoded_tags") rid

/-- C1 (counterexample): a row whose `selected_pps` cell holds the non-empty
string `"."` is reported as `complete` although the cleaned facility string
is empty — the claim's "cleaned facility string empty implies Pending" fails
on the code. -/
theorem c1_counterexample :
    (pollRow [("route_analysis", PyVal.vDict [("value", PyVal.vStr "ok")]),
      ("selected_pps", PyVal.vDict [("value", PyVal.vStr ".")])] "r1").status
        = "complete" ∧
    (pollRow [("route_analysis", PyVal.vDict [("value", PyVal.vStr "ok")]),
      ("selected_pps", PyVal.vDict [("value", PyVal.vStr ".")])] "r1").selected_pps
        = some "" ∧
    ("complete" : String) ≠ "pending" :=
  ⟨rfl, rfl, by decide⟩

/-! ## C2 — cell unwrapping -/

/-- C2 (counterexample): `get_cell_val` on the bare-string cell
`"route_analysis": "text"` yields `None` (since `getattr` on a `str` has no
`value` attribute), while the wrapped cell yields `"text"` — the two shapes
are not treated equivalently. -/
theorem c2_counterexample :
    get_cell_val [("route_analysis", PyVal.vStr "text")] "route_analysis"
        = PyVal.vNone ∧
    get_cell_val [("route_analysis", PyVal.vDict [("value", PyVal.vStr "text")])]
        "route_analysis" = PyVal.vStr "text" ∧
    PyVal.vNone ≠ PyVal.vStr "text" :=
  ⟨rfl, rfl, fun h => nomatch h⟩

/-- C2 (amended): the unwrapping treats a dict cell carrying a `value` key
and an SDK object cell carrying a `value` attribute equivalently, unwrapping
exactly one level; a bare scalar string cell, however, always extracts to
`None` (it is treated as absent), so the bare and wrapped shapes are not
equivalent. -/
theorem c2_unwrap_one_level (s : String) :
    get_cell_val [("route_analysis", PyVal.vDict [("value", PyVal.vStr s)])]
        "route_analysis" = PyVal.vStr s ∧
    get_cell_val [("route_analysis", PyVal.vObj (some (PyVal.vStr s)))]
        "route_analysis" = PyVal.vStr s ∧
    get_cell_val [("route_analysis", PyVal.vStr s)] "route_analysis"
        = PyVal.vNone := by
  refine ⟨rfl, rfl, ?_⟩
  simp only [get_cell_val, lookupD, List.find?]
  simp

/-! ## C3 — marker-line scan and the no-marker case -/

/-- C3 (counterexample): in `_create_routing_entry` (`src/api/jamai.py`), a
non-empty analysis text with no marker line makes `[...][-1]` raise
`IndexError` (modeled as `Except.error ()`), which the handler reports as a
500 server error — not an empty facility with a pending result. -/
theorem c3_counterexample :
    createEntryExtract "Some analysis without a marker" = Except.error () ∧
    ("Some analysis without a marker" : String) ≠ "" :=
  ⟨rfl, by decide⟩

/-- C3 (amended): `route_optimal_pps` scans the lines in reverse for one
whose trimmed upper-cased form begins with `BEST MATCH:`, takes the
remainder after the first colon of the last such line, and returns `None`
without raising when no line matches; `_create_routing_entry`, by contrast,
raises `IndexError` (a 500 server error) whenever the analysis text is
non-empty and contains no marker line. -/
theorem c3_marker_scan (t u : String)
    (hnone : ((splitLines t.data).all fun l => !isMarkerLine l) = true)
    (hu : u ≠ "")
    (hunone : ((splitOnNl u.data).all fun l => !isMarkerLine l) = true) :
    route_optimal_pps_parse t = none ∧
    route_optimal_pps_parse "intro\nbest match: A\nBEST MATCH: B" = some "B" ∧
    createEntryExtract u = Except.error () := by
  refine ⟨?_, rfl, ?_⟩
  · unfold route_optimal_pps_parse
    have h : (splitLines t.data).reverse.find? (fun l => isMarkerLine l) = none := by
      rw [List.find?_eq_none]
      intro l hl
      have := List.all_eq_true.mp hnone l (List.mem_reverse.mp hl)
      simpa using this
    rw [h]
  · unfold createEntryExtract
    rw [if_neg hu]
    have h : (splitOnNl u.data).filter (fun l => isMarkerLine l) = [] := by
      rw [List.filter_eq_nil_iff]
      intro l hl
      have := List.all_eq_true.mp hunone l hl
      simpa using this
    rw [h]
    rfl

/-- C3 (witness): the amended theorem applied to a marker-free text. -/
theorem c3_marker_scan_witness :
    route_optimal_pps_parse "plain reasoning text" = none ∧
    route_optimal_pps_parse "intro\nbest match: A\nBEST MATCH: B" = some "B" ∧
    createEntryExtract "plain reasoning text" = Except.error () :=
  c3_marker_scan "plain reasoning text" "plain reasoning text"
    (by decide) (by decide) (by decide)

/-! ## C7 — trailing punctuation of the extracted facility -/

/-- C7 (counterexample): on an analysis text whose marker line is
`BEST MATCH: Dewan Serbaguna.`, the extraction of `_create_routing_entry`
returns `"Dewan Serbaguna."` — `strip()` removes whitespace only, so the
trailing period is retained, contradicting the claimed `"Dewan Serbaguna"`. -/
theorem c7_counterexample :
    createEntryExtract "Reasoning here\nBEST MATCH: Dewan Serbaguna."
        = Except.ok ("Dewan Serbaguna.", "Reasoning here") ∧
    ("Dewan Serbaguna." : String) ≠ "Dewan Serbaguna" :=
  ⟨rfl, by decide⟩

/-- C7 (amended): both marker-line extractors keep the trailing period,
yielding `"Dewan Serbaguna."`; the trailing punctuation is stripped only by
the separate poll-time cleanup `strip(" .*:_")` of `src/api/index.py`, which
maps `"Dewan Serbaguna."` to `"Dewan Serbaguna"`. -/
theorem c7_trailing_period :
    createEntryExtract "Reasoning\nBEST MATCH: Dewan Serbaguna."
        = Except.ok ("Dewan Serbaguna.", "Reasoning") ∧
    route_optimal_pps_parse "Reasoning\nBEST MATCH: Dewan Serbaguna."
        = some "Dewan Serbaguna." ∧
    cleanPps "Dewan Serbaguna." = "Dewan Serbaguna" :=
  ⟨rfl, rfl, rfl⟩

/-! ## C4 — poll failures are recoverable -/

/-- C4: any exception raised while fetching or parsing the row (including an
unknown `row_id`) is converted to a 200 response with status `pending`,
`success = false`, the error details, and the echoed row id; moreover every
poll outcome whatsoever answers HTTP 200, never a hard error. -/
theorem c4_poll_error_recoverable :
    (∀ (e rid : String),
      (analyze_poll (Except.error e) rid).code = 200 ∧
      (analyze_poll (Except.error e) rid).status = "pending" ∧
      (analyze_poll (Except.error e) rid).success = false ∧
      (analyze_poll (Except.error e) rid).error_details = some e ∧
      (analyze_poll (Except.error e) rid).row_id = some rid) ∧
    (∀ (fetch : Except String RowResponse) (rid : String),
      (analyze_poll fetch rid).code = 200) := by
  constructor
  · intro e rid
    exact ⟨rfl, rfl, rfl, rfl, rfl⟩
  · intro fetch rid
    cases fetch with
    | error e => rfl
    | ok resp =>
      show (match extract_row_data resp with
        | none => pendNoRow
        | some row => if row.isEmpty then pendNoRow else pollRow row rid).code = 200
      cases extract_row_data resp with
      | none => rfl
      | some row =>
        cases row with
        | nil => rfl
        | cons e es =>
          simpa [List.isEmpty] using
            pollFromCells_code (get_cell_val (e :: es) "route_analysis")
              (get_cell_val (e :: es) "selected_pps")
              (get_cell_val (e :: es) "decoded_tags") rid

/-! ## C5 — empty input is rejected synchronously -/

/-- C5: a request whose `user_input` is empty (or absent) and which carries
no `row_id` is answered with the 400 validation error of lines 29-30 of
`src/api/index.py`, and no network call is issued. -/
theorem c5_empty_input_validation (inp : AnalyzeInput)
    (fetch : Except String RowResponse) (submit : Except String Completion)
    (hu : optTruthy inp.user_input = false) (hr : inp.row_id = none) :
    (analyze_route inp fetch submit).1.code = 400 ∧
    (analyze_route inp fetch submit).2 = [] := by
  have hrt : optTruthy inp.row_id = false := by rw [hr]; rfl
  unfold analyze_route
  rw [hu, hrt]
  exact ⟨rfl, rfl⟩

/-- C5 (witness): the theorem at the concrete empty request. -/
theorem c5_empty_input_validation_witness :
    (analyze_route ⟨some "", none, none⟩ (Except.error "net")
      (Except.error "net")).1.code = 400 ∧
    (analyze_route ⟨some "", none, none⟩ (Except.error "net")
      (Except.error "net")).2 = [] :=
  c5_empty_input_validation ⟨some "", none, none⟩ (Except.error "net")
    (Except.error "net") (by decide) rfl

/-! ## C6 — submission success always carries a non-empty row id -/

theorem submitMode_spec (submit : Except String Completion) :
    ((submitMode submit).code = 200 ∧ (submitMode submit).status = "submitted" ∧
      ∃ r, (submitMode submit).row_id = some r ∧ r ≠ "") ∨
    (submitMode submit).code = 500 := by
  cases submit with
  | error e => exact Or.inr rfl
  | ok comp =>
    simp only [submitMode]
    cases hrow : submitRowId comp with
    | none => exact Or.inr rfl
    | some r =>
      simp only [submitRespOf]
      by_cases hre : r = ""
      · subst hre
        exact Or.inr rfl
      · have hb : (r != "") = true := by simpa using hre
        rw [if_pos hb]
        exact Or.inl ⟨rfl, rfl, r, rfl, hre⟩

/-- C6: for a valid non-empty `user_input` (and no usable `row_id`, so
submit mode runs), `analyze_route` either answers 200 `submitted` with a
non-empty row id, or answers a 500 submission error; a success whose row id
is empty or missing is impossible, because the falsy-id check of line 174 of
`src/api/index.py` routes it to the 500 branch. -/
theorem c6_submit_nonempty_id (inp : AnalyzeInput)
    (fetch : Except String RowResponse) (submit : Except String Completion)
    (hu : optTruthy inp.user_input = true) (hr : optTruthy inp.row_id = false) :
    ((analyze_route inp fetch submit).1.code = 200 ∧
      (analyze_route inp fetch submit).1.status = "submitted" ∧
      ∃ r, (analyze_route inp fetch submit).1.row_id = some r ∧ r ≠ "") ∨
    (analyze_route inp fetch submit).1.code = 500 := by
  have h1 : (!optTruthy inp.user_input && !optTruthy inp.row_id) = false := by
    rw [hu]; rfl
  have h2 : analyze_route inp fetch submit = (submitMode submit, [NetCall.addRows]) := by
    unfold analyze_route
    rw [h1, hr]
    simp
  rw [h2]
  exact submitMode_spec submit

/-- C6 (witness): the theorem at a concrete submission returning row id
`row-123`. -/
theorem c6_submit_nonempty_id_witness :
    ((analyze_route ⟨some "4 people, one bedridden, one cat", some "Segamat", none⟩
        (Except.error "unused")
        (Except.ok (Completion.cdict [RowRef.rdict (some "row-123")]))).1.code = 200 ∧
      (analyze_route ⟨some "4 people, one bedridden, one cat", some "Segamat", none⟩
        (Except.error "unused")
        (Except.ok (Completion.cdict [RowRef.rdict (some "row-123")]))).1.status
          = "submitted" ∧
      ∃ r, (analyze_route ⟨some "4 people, one bedridden, one cat", some "Segamat", none⟩
        (Except.error "unused")
        (Except.ok (Completion.cdict [RowRef.rdict (some "row-123")]))).1.row_id
          = some r ∧ r ≠ "") ∨
    (analyze_route ⟨some "4 people, one bedridden, one cat", some "Segamat", none⟩
      (Except.error "unused")
      (Except.ok (Completion.cdict [RowRef.rdict (some "row-123")]))).1.code = 500 :=
  c6_submit_nonempty_id _ _ _ (by decide) (by decide)

/-! ## C8 — candidate endpoint lists -/

/-- C8 (counterexample): with the non-empty base URL `"/"`, the builder of
`src/scripts/emergency_routing_workflow.py` strips the trailing slash to the
empty string and its `if base:` guard then yields the empty candidate list,
contradicting "never empty when a base URL is configured". -/
theorem c8_counterexample :
    ("/" : String) ≠ "" ∧
    build_candidate_table_urls_v2 "/" "proj1" "emergency_routing" = [] :=
  ⟨by decide, rfl⟩

/-- C8 (amended): whenever the configured base URL still contains a
non-slash character (it is non-empty after trailing-slash stripping), both
builders return a non-empty candidate list as a pure function of the
configuration; the `run_full_emergency_workflow.py` variant is in fact
non-empty for every configuration, while the scripts variant is empty
exactly when the stripped base is empty. -/
theorem c8_candidates_nonempty (api_url project_id table_name : String)
    (h : rstripSlash api_url ≠ "") :
    build_candidate_table_urls api_url project_id table_name ≠ [] ∧
    build_candidate_table_urls_v2 api_url project_id table_name ≠ [] := by
  have ha : api_url ≠ "" := by
    intro he
    exact h (by rw [he]; rfl)
  have hab : (api_url != "") = true := by simpa using ha
  have hb : (rstripSlash api_url != "") = true := by simpa using h
  constructor
  · unfold build_candidate_table_urls
    rw [if_pos hab]
    by_cases hp : project_id = ""
    · subst hp
      simp
    · have hpb : (project_id != "") = true := by simpa using hp
      rw [if_pos hpb]
      simp
  · unfold build_candidate_table_urls_v2
    rw [if_pos hab, if_pos hb]
    simp

/-- C8 (witness): the amended theorem at a concrete configuration. -/
theorem c8_candidates_nonempty_witness :
    build_candidate_table_urls "https://api.example.com/" "proj1" "emergency_routing" ≠ [] ∧
    build_candidate_table_urls_v2 "https://api.example.com/" "proj1" "emergency_routing" ≠ [] :=
  c8_candidates_nonempty "https://api.example.com/" "proj1" "emergency_routing"
    (by decide)

/-! ## C9 — the first 2xx endpoint wins -/

/-- C9: the upload loop tries the candidates in order, each at most once;
either no candidate answers 2xx, and the loop reports failure having tried
them all, or the candidates split as `pre ++ u :: suf` where every endpoint
of `pre` failed, `u` is the first 2xx responder, and the loop stops there
reporting success, having tried exactly `pre ++ [u]`. -/
theorem c9_first_2xx_wins (post : String → Option Nat) (cs : List String) :
    (uploadLoop post cs = (none, cs) ∧ ∀ u ∈ cs, is2xx (post u) = false) ∨
    (∃ pre u suf, cs = pre ++ u :: suf ∧ (∀ v ∈ pre, is2xx (post v) = false) ∧
      is2xx (post u) = true ∧ uploadLoop post cs = (some u, pre ++ [u])) := by
  induction cs with
  | nil => exact Or.inl ⟨rfl, by simp⟩
  | cons c rest ih =>
    by_cases h : is2xx (post c) = true
    · exact Or.inr ⟨[], c, rest, rfl, by simp, h, by simp [uploadLoop, h]⟩
    · have hf : is2xx (post c) = false := by simpa using h
      cases ih with
      | inl hl =>
        refine Or.inl ⟨?_, ?_⟩
        · simp [uploadLoop, hf, hl.1]
        · intro u hu
          rcases List.mem_cons.mp hu with rfl | hm
          · exact hf
          · exact hl.2 u hm
      | inr hrr =>
        rcases hrr with ⟨pre, u, suf, hcs, hpre, hu, heq⟩
        refine Or.inr ⟨c :: pre, u, suf, by rw [hcs]; rfl, ?_, hu, ?_⟩
        · intro v hv
          rcases List.mem_cons.mp hv with rfl | hm
          · exact hf
          · exact hpre v hm
        · simp [uploadLoop, hf, heq]

/-! ## C10 — /api/route always answers 200 with a fallback on failure -/

/-- C10: every request to `/api/route` (body modeled as a JSON object with
optional string fields) is answered with HTTP 200; when the remote insertion
raises, or when extraction fails because the completion has no rows, the
body is the deterministic local fallback, which always carries an analysis
string and a three-entry markers list. -/
theorem c10_route_always_200 :
    (∀ (p : RoutePayload) (remote : Except String CompletionR),
      (route_handler p remote).2 = 200) ∧
    (∀ (p : RoutePayload) (e : String),
      ∃ a ds, route_handler p (Except.error e) = (RouteBody.fbBody a ds, 200) ∧
        ds.length = 3) ∧
    (∀ (p : RoutePayload),
      ∃ a ds, route_handler p (Except.ok ⟨[]⟩) = (RouteBody.fbBody a ds, 200) ∧
        ds.length = 3) := by
  refine ⟨?_, ?_, ?_⟩
  · intro p remote
    cases remote with
    | error e => rfl
    | ok comp =>
      obtain ⟨rows⟩ := comp
      cases rows with
      | nil => rfl
      | cons r rest => rfl
  · intro p e
    exact ⟨_, _, rfl, rfl⟩
  · intro p
    exact ⟨_, _, rfl, rfl⟩
